import Mathlib

/-!
A verification development for a small Discord bot (src/main.py) that polls
the FRED data service, caches upcoming economic releases, notifies
subscribed channels shortly before a release, and relays Finviz chart
images.

The Python source is shallowly embedded below: pure fragments become Lean
functions, the mutable event cache becomes explicit state passing, library
calls (pandas, fredapi, aiohttp, datetime) are modelled by their documented
semantics, and numeric observation values are rationals.
-/

/-- A wall-clock instant: an absolute day number together with a time of
day.  Day numbers follow Python's `date.weekday()` convention via `day % 7`
with day 0 chosen to be a Monday (so 0 = Monday, …, 5 = Saturday,
6 = Sunday). -/
structure DateTime where
  day : Nat
  hour : Nat
  minute : Nat
  second : Nat
  deriving DecidableEq, Repr

/-- Seconds since the epoch of the model; used for `timedelta` arithmetic
(`scheduledAt - now`) at the second granularity of the claims. -/
def DateTime.totalSeconds (t : DateTime) : Nat :=
  ((t.day * 24 + t.hour) * 60 + t.minute) * 60 + t.second

/-- The loop `while next_day.weekday() >= 5: next_day += timedelta(days=1)`
of `fetch_economic_events` (src/main.py:93-94), written with an iteration
bound.  The loop body adds one day, and from any start the guard fails
after at most two iterations (the weekday residues 5 and 6 are the only
weekend ones), so 7 guarded steps always compute the loop's exact result;
`skipWeekend_fix` below proves that the bounded form satisfies the loop's
defining equation. -/
def skipWeekendAux : Nat → Nat → Nat
  | 0, d => d
  | fuel + 1, d => if d % 7 ≥ 5 then skipWeekendAux fuel (d + 1) else d

/-- `while next_day.weekday() >= 5: next_day += timedelta(days=1)`. -/
def skipWeekend (d : Nat) : Nat := skipWeekendAux 7 d

/-- The "next applicable date" computation of `fetch_economic_events`
(src/main.py:86-98): note the source tests
`now.hour >= 16 and now.minute >= 30`, both conjuncts on the raw fields. -/
def nextApplicableDate (now : DateTime) : Nat :=
  let nextDay := if now.hour ≥ 16 ∧ now.minute ≥ 30 then now.day + 1 else now.day
  skipWeekend nextDay

/-- The claim's (and the source comment's) reading of the cutoff: the day
advances whenever the current time of day is at or after 16:30.  Modelled
from the spec for comparison with `nextApplicableDate`. -/
def specNextApplicableDate (now : DateTime) : Nat :=
  let nextDay :=
    if now.hour * 60 + now.minute ≥ 16 * 60 + 30 then now.day + 1 else now.day
  skipWeekend nextDay

/-- Insert thousands separators into a reversed digit list; `k` counts the
digits already emitted. -/
def commasRev : List Char → Nat → List Char
  | [], _ => []
  | c :: cs, k =>
    if k % 3 = 0 ∧ k ≠ 0 then ',' :: c :: commasRev cs (k + 1)
    else c :: commasRev cs (k + 1)

/-- Render a natural number with comma-grouped thousands, as Python's
`format(n, ',d')` does. -/
def groupNat (n : Nat) : String :=
  String.mk ((commasRev (Nat.toDigits 10 n).reverse 0).reverse)

/-- Two-digit zero-padded rendering of a fraction part below 100. -/
def twoDigits (n : Nat) : String := (if n < 10 then "0" else "") ++ toString n

/-- `⌊100·q + 1/2⌋`, i.e. `q` rounded half-up to a whole number of
hundredths, computed by floor division on the numerator and denominator:
`100·q + 1/2 = (200·num + den) / (2·den)`. -/
def roundCents (q : ℚ) : Int := Int.fdiv (200 * q.num + (q.den : Int)) (2 * (q.den : Int))

/-- `⌊q + 1/2⌋`, rounding half-up to an integer, likewise by floor
division. -/
def roundUnits (q : ℚ) : Int := Int.fdiv (2 * q.num + (q.den : Int)) (2 * (q.den : Int))

/-- Python `f"{v:.2f}"` (and, with `grouped = true`, `f"{v:,.2f}"`) on the
rational model of the observation value.  Ties round half-up; the claims
are settled on inputs whose two-decimal rendering is exact, so the
tie-breaking convention of binary floats is never exercised. -/
def fmt2 (grouped : Bool) (q : ℚ) : String :=
  let m : Nat := (roundCents q).natAbs
  (if q < 0 then "-" else "") ++
    (if grouped then groupNat (m / 100) else toString (m / 100)) ++
    "." ++ twoDigits (m % 100)

/-- Python `f"{v:,.0f}"` on the rational model. -/
def fmt0Grouped (q : ℚ) : String :=
  (if q < 0 then "-" else "") ++ groupNat (roundUnits q).natAbs

/-- Prefix test on character lists (needle, haystack). -/
def startsList : List Char → List Char → Bool
  | [], _ => true
  | _ :: _, [] => false
  | a :: as, b :: bs => a == b && startsList as bs

/-- Substring occurrence on character lists (needle, haystack). -/
def subList : List Char → List Char → Bool
  | needle, [] => needle.isEmpty
  | needle, c :: rest => startsList needle (c :: rest) || subList needle rest

/-- Python's `needle in hay` on strings. -/
def hasSub (hay needle : String) : Bool := subList needle.data hay.data

/-- The indicator catalog `ECONOMIC_INDICATORS` of src/main.py:34-67. -/
def ECONOMIC_INDICATORS : List (String × String) :=
  [("CPIAUCSL", "Consumer Price Index (CPI)"),
   ("CPILFESL", "Core CPI (excluding Food & Energy)"),
   ("PAYEMS", "Nonfarm Payroll"),
   ("UNRATE", "Unemployment Rate"),
   ("GDP", "Gross Domestic Product"),
   ("FEDFUNDS", "Federal Funds Rate"),
   ("INDPRO", "Industrial Production Index"),
   ("RSXFS", "Retail Sales"),
   ("RRSFS", "Real Retail Sales"),
   ("VIXCLS", "VIX Volatility Index"),
   ("DTWEXB", "US Dollar Index"),
   ("DCOILWTICO", "Crude Oil WTI"),
   ("DGS2", "2-Year Treasury Rate"),
   ("DGS10", "10-Year Treasury Rate"),
   ("T10Y2Y", "10Y-2Y Treasury Spread"),
   ("WALCL", "Fed Balance Sheet Total Assets"),
   ("M2V", "Velocity of M2 Money Stock"),
   ("BOGMBASE", "Monetary Base"),
   ("ICSA", "Initial Jobless Claims"),
   ("PCE", "Personal Consumption Expenditures"),
   ("HOUST", "Housing Starts")]

/-- The catalog keys, in catalog order. -/
def indicatorKeys : List String := ECONOMIC_INDICATORS.map Prod.fst

/-- The hard-coded high-impact subset (src/main.py:151). -/
def highImpactKeys : List String := ["CPIAUCSL", "PAYEMS", "GDP", "FEDFUNDS"]

/-- The percentage-formatted keys (src/main.py:128). -/
def percentKeys : List String := ["UNRATE", "FEDFUNDS", "DGS2", "DGS10", "T10Y2Y"]

/-- The inline value-formatting ladder of `fetch_economic_events`
(src/main.py:127-145), as a function of the series id, the unit string
(`info.get('units', '')`) and the most recent value found (`None` when no
non-null value was found). -/
def formatValue (seriesId units : String) (v : Option ℚ) : String :=
  match v with
  | none => "N/A"
  | some x =>
    if percentKeys.contains seriesId then fmt2 false x ++ "%"
    else if seriesId = "DCOILWTICO" then "$" ++ fmt2 false x ++ "/bbl"
    else if seriesId = "GOLDPMGBD228NLBM" then "$" ++ fmt2 false x ++ "/oz"
    else if hasSub units "Billions of Dollars" then "$" ++ fmt2 true x ++ "B"
    else if hasSub units "Millions of Dollars" then "$" ++ fmt2 true x ++ "M"
    else if seriesId = "ICSA" then fmt0Grouped x
    else if seriesId = "VIXCLS" then fmt2 false x
    else fmt2 true x

/-- The formatting ladder exactly as claim C7 states it (percent keys, oil,
Billions, Millions, jobless claims, volatility index, grouped default,
absent value as "N/A").  Modelled from the spec's words for comparison
with `formatValue`; the difference is that the source also has a
gold-price branch for key GOLDPMGBD228NLBM. -/
def specLadderFormat (seriesId units : String) (v : Option ℚ) : String :=
  match v with
  | none => "N/A"
  | some x =>
    if percentKeys.contains seriesId then fmt2 false x ++ "%"
    else if seriesId = "DCOILWTICO" then "$" ++ fmt2 false x ++ "/bbl"
    else if hasSub units "Billions of Dollars" then "$" ++ fmt2 true x ++ "B"
    else if hasSub units "Millions of Dollars" then "$" ++ fmt2 true x ++ "M"
    else if seriesId = "ICSA" then fmt0Grouped x
    else if seriesId = "VIXCLS" then fmt2 false x
    else fmt2 true x

/-- The impact classification of src/main.py:151. -/
inductive Impact
  | High
  | Medium
  deriving DecidableEq, Repr

/-- One cached event, as built by `fetch_economic_events`
(src/main.py:147-153).  The source stores `release_date.isoformat()` (a
date-only ISO string) in the `time` field and the notifier parses it back
with `datetime.fromisoformat`, which yields midnight for a date-only
string; the model stores the parsed instant directly. -/
structure EventRec where
  time : DateTime
  title : String
  series_id : String
  impact : Impact
  previous : String
  deriving DecidableEq, Repr

/-- What a successful per-indicator round trip to the FRED gateway yields:
the series metadata's unit string (`info.get('units', '')` finds nothing
when `unitsOpt = none`), the observations of the trailing 30-day query in
the gateway's ascending date order (`none` entries are NaN observations),
and the observations returned by the `limit=1` fallback query. -/
structure IndicatorData where
  unitsOpt : Option String
  window : List (Option ℚ)
  latest : List (Option ℚ)

/-- The environment one refresh run executes in: the current Eastern-time
clock, the gateway outcome per series id (`none` models the fetch for that
id raising, which the source catches per indicator at src/main.py:154-156),
and whether an exception reaches the run-level handler at
src/main.py:159-161 before any indicator completes. -/
structure RefreshEnv where
  now : DateTime
  gateway : String → Option IndicatorData
  outerFail : Bool

/-- The series the value scan runs over (src/main.py:115-117): the
fallback `limit=1` query is issued only when the 30-day window is empty,
i.e. has no observations at all. -/
def pickSeries (window latest : List (Option ℚ)) : List (Option ℚ) :=
  if window.isEmpty then latest else window

/-- The scan `for val in series: if pd.notna(val): previous_value = val;
break` (src/main.py:120-124): the first non-null value in iteration order,
which for the ascending gateway order is the oldest one. -/
def firstNonNA : List (Option ℚ) → Option ℚ
  | [] => none
  | some v :: _ => some v
  | none :: rest => firstNonNA rest

/-- One event record of src/main.py:147-153 for a successfully fetched
indicator. -/
def mkEvent (releaseDay : Nat) (sid desc : String) (d : IndicatorData) : EventRec :=
  { time := ⟨releaseDay, 0, 0, 0⟩
    title := desc
    series_id := sid
    impact := if highImpactKeys.contains sid then Impact.High else Impact.Medium
    previous := formatValue sid (d.unitsOpt.getD "") (firstNonNA (pickSeries d.window d.latest)) }

/-- `sorted(events, key=lambda x: x['time'])` (src/main.py:158); the sort
key is the ISO date string, whose order on dates agrees with the order of
the model's day numbers.  Python's sort is stable, as is insertion sort. -/
def sortEvents (evs : List EventRec) : List EventRec :=
  List.insertionSort (fun a b => a.time.day ≤ b.time.day) evs

/-- `fetch_economic_events` (src/main.py:78-161): the resulting event list
together with the console log lines printed.  When an exception reaches
the run-level handler the function logs and returns the empty list. -/
def fetch_economic_events (env : RefreshEnv) : List EventRec × List String :=
  if env.outerFail then ([], ["Error fetching economic events"])
  else
    let rd := nextApplicableDate env.now
    (sortEvents (ECONOMIC_INDICATORS.filterMap (fun p =>
        (env.gateway p.1).map (mkEvent rd p.1 p.2))),
     (ECONOMIC_INDICATORS.filter (fun p => (env.gateway p.1).isNone)).map
        (fun p => "Error fetching " ++ p.1))

/-- `update_daily_events` (src/main.py:190-194): the cache is
unconditionally replaced by whatever `fetch_economic_events` returns; the
previous cache contents are the first argument and are discarded.  The
task sends no chat messages. -/
def update_daily_events (cache : List EventRec) (env : RefreshEnv) : List EventRec :=
  let _ := cache
  (fetch_economic_events env).1

/-- `timedelta = event_time - now` in seconds (src/main.py:174). -/
def timeUntil (e : EventRec) (now : DateTime) : Int :=
  (e.time.totalSeconds : Int) - (now.totalSeconds : Int)

/-- One tick of `check_events` (src/main.py:163-188): the (event, channel)
notification messages sent, given the current UTC clock, the cached event
list and the registered announcement channels (all assumed resolvable by
`bot.get_channel`).  An event whose parsed time is the midnight
placeholder is skipped; otherwise a message goes to every channel exactly
when `timedelta(minutes=14) <= event_time - now <= timedelta(minutes=15)`. -/
def check_events (now : DateTime) (cache : List EventRec) (channels : List Nat) :
    List (EventRec × Nat) :=
  cache.foldr (fun e acc =>
    (if e.time.hour = 0 ∧ e.time.minute = 0 then []
     else if 14 * 60 ≤ timeUntil e now ∧ timeUntil e now ≤ 15 * 60 then
       channels.map (fun c => (e, c))
     else []) ++ acc) []

/-- The reply `send_chart` (src/main.py:243-292) produces: a plain text
message, a file-attachment embed (re-uploaded image bytes, named with
ticker, period code and Unix timestamp), or an embed pointing at a URL. -/
inductive ChartReply
  | message (text : String)
  | fileEmbed (fileName title : String)
  | urlEmbed (title url : String)
  deriving DecidableEq, Repr

/-- The outcome of one `send_chart` invocation: the reply sent to the
channel, and whether an HTTP request to finviz.com was issued. -/
structure ChartSend where
  reply : ChartReply
  usedNetwork : Bool
  deriving DecidableEq, Repr

/-- The environment of one `send_chart` call: the outcome of the HTTP GET
were it issued (`none` models a network failure / timeout, `some st` an
HTTP response with status `st`), and `int(time.time())`. -/
structure ChartEnv where
  fetchOutcome : Option Nat
  timestamp : Nat

/-- Python `str.lower()` (ASCII inputs), mapped over the characters. -/
def strLower (s : String) : String := String.mk (s.data.map Char.toLower)

/-- Python `str.upper()` (ASCII inputs), mapped over the characters. -/
def strUpper (s : String) : String := String.mk (s.data.map Char.toUpper)

/-- `valid_timeframes` (src/main.py:246-248). -/
def valid_timeframes : List (String × String) :=
  [("d", "daily"), ("w", "weekly"), ("m", "monthly")]

/-- `p_map` (src/main.py:259). -/
def p_map : List (String × String) :=
  [("daily", "d"), ("weekly", "w"), ("monthly", "m")]

/-- The Finviz chart URL constructed at src/main.py:262. -/
def chartUrl (upperTicker p : String) : String :=
  "https://finviz.com/chart.ashx?t=" ++ upperTicker ++ "&ty=c&ta=1&p=" ++ p ++ "&s=l"

/-- `send_chart` (src/main.py:243-292).  The intraday tokens are rejected
before any network activity; an unknown timeframe is rejected likewise; on
HTTP 200 the image bytes are re-uploaded as an attachment; on any other
status (the handler raises into its own `except`) or on a network failure
the reply is an embed of the original URL with `&rand=<timestamp>`
appended.  Every branch completes by sending a reply; none raises to the
caller. -/
def send_chart (ticker timeframe : String) (env : ChartEnv) : ChartSend :=
  let tf := strLower timeframe
  if ["3", "5", "15"].contains tf then
    ⟨ChartReply.message "Intraday charts are only available for FINVIZ*Elite users.", false⟩
  else
    match valid_timeframes.lookup tf with
    | none =>
        ⟨ChartReply.message
          "Invalid timeframe. Use 'd' for daily, 'w' for weekly, or 'm' for monthly.",
         false⟩
    | some tfName =>
        let p := (p_map.lookup tfName).getD ""
        let upT := strUpper ticker
        match env.fetchOutcome with
        | some st =>
            if st = 200 then
              ⟨ChartReply.fileEmbed (upT ++ "_" ++ p ++ "_" ++ toString env.timestamp ++ ".png")
                 (upT ++ " " ++ tfName ++ " Chart"), true⟩
            else
              ⟨ChartReply.urlEmbed (upT ++ " " ++ tfName ++ " Chart")
                 (chartUrl upT p ++ "&rand=" ++ toString env.timestamp), true⟩
        | none =>
            ⟨ChartReply.urlEmbed (upT ++ " " ++ tfName ++ " Chart")
               (chartUrl upT p ++ "&rand=" ++ toString env.timestamp), true⟩

/-- pandas index lookup: the first entry of the series with the given
date, if any (FRED series have distinct dates). -/
def lookupDate (d : List (Nat × Option ℚ)) (t : Nat) : Option (Option ℚ) :=
  (d.find? (fun q => q.1 == t)).map Prod.snd

/-- The pairs of values pandas aligns for `Series.corr`: dates present in
both series with both observations non-null. -/
def alignPairs (d1 d2 : List (Nat × Option ℚ)) : List (ℚ × ℚ) :=
  d1.filterMap (fun q =>
    match q.2, lookupDate d2 q.1 with
    | some v1, some (some v2) => some (v1, v2)
    | _, _ => none)

/-- `n` times the covariance sum of aligned pairs, scaled by `n`:
`n·Σxy − Σx·Σy`.  The Pearson coefficient is `nCov / √(nVar·nVar)`, the
scaling cancelling between numerator and denominator. -/
def nCov (pts : List (ℚ × ℚ)) : ℚ :=
  (pts.length : ℚ) * (pts.map (fun p => p.1 * p.2)).sum -
    (pts.map Prod.fst).sum * (pts.map Prod.snd).sum

/-- `n·Σx² − (Σx)²`, the same scaling of the variance sum. -/
def nVar (l : List ℚ) : ℚ :=
  (l.length : ℚ) * (l.map (fun x => x * x)).sum - l.sum ^ 2

/-- `data1.corr(data2)` (src/main.py:529): the Pearson coefficient of the
aligned pairs, or `none` for the NaN that pandas returns when fewer than
two points overlap or either aligned sequence has zero variance.  pandas
computes in floats; the model computes the same formula exactly. -/
noncomputable def pandasCorr (pts : List (ℚ × ℚ)) : Option ℝ :=
  if pts.length < 2 ∨ nVar (pts.map Prod.fst) = 0 ∨ nVar (pts.map Prod.snd) = 0 then
    none
  else
    some ((nCov pts : ℝ) /
      Real.sqrt (((nVar (pts.map Prod.fst) * nVar (pts.map Prod.snd) : ℚ) : ℝ)))

/-- The reply of the correlation handler: a normal result embed whose
coefficient field renders `f"{correlation:.2f}"` (`none` is pandas' NaN,
which formats as the string "nan" without raising), or the error message
of the handler's `except` clause. -/
inductive CorrReply
  | result (coeff : Option ℝ)
  | error (msg : String)

/-- Whether a correlation reply is the handler's error reply. -/
def corrReplyIsError : CorrReply → Bool
  | CorrReply.result _ => false
  | CorrReply.error _ => true

/-- `get_correlation` (src/main.py:503-540), given the outcomes of the two
`fred.get_series` calls (`Except.error` models the call raising, which the
handler's `except` converts to a user-visible error message).  When both
fetches succeed the handler always sends the normal result embed: the
`.corr` call and the `.2f` formatting never raise, a NaN coefficient
simply renders as "nan". -/
noncomputable def get_correlation
    (r1 r2 : Except String (List (Nat × Option ℚ))) : CorrReply :=
  match r1, r2 with
  | Except.error e, _ => CorrReply.error ("Error calculating correlation: " ++ e)
  | _, Except.error e => CorrReply.error ("Error calculating correlation: " ++ e)
  | Except.ok d1, Except.ok d2 => CorrReply.result (pandasCorr (alignPairs d1 d2))

/-- The high-impact embed fields of `list_events` (src/main.py:353-366):
one (name, value) field per high-impact event, parametrised by the
`strftime('%a, %b %d')` and `strftime('%I:%M %p')` renderings, which the
platform's C library supplies. -/
def highEventFields (fd ft : DateTime → String) (evs : List EventRec) :
    List (String × String) :=
  evs.map (fun e =>
    let dateStr := fd e.time
    let nameField :=
      if e.time.hour ≠ 0 ∨ e.time.minute ≠ 0 then dateStr ++ " • " ++ ft e.time
      else dateStr
    (nameField, "**" ++ e.title ++ "**\n└ Previous: " ++ e.previous))

/-- The date-grouped "other events" embed fields of `list_events`
(src/main.py:374-396): the fold state is (current date label, flushed
fields, text being accumulated), flushed once more at the end when
non-empty. -/
def otherEventFields (fd ft : DateTime → String) (evs : List EventRec) :
    List (String × String) :=
  let final := evs.foldl (fun st e =>
    let dateStr := fd e.time
    let timeComponent :=
      if e.time.hour ≠ 0 ∨ e.time.minute ≠ 0 then "`" ++ ft e.time ++ "` " else ""
    let st1 :=
      if some dateStr ≠ st.1 then
        if st.2.2 ≠ "" then (some dateStr, st.2.1 ++ [(st.1.getD "", st.2.2)], "")
        else (some dateStr, st.2.1, st.2.2)
      else st
    (st1.1, st1.2.1,
     st1.2.2 ++ timeComponent ++ "**" ++ e.title ++ "** (" ++ e.previous ++ ")\n"))
    ((none : Option String), ([] : List (String × String)), "")
  if final.2.2 ≠ "" then final.2.1 ++ [(final.1.getD "", final.2.2)] else final.2.1

/-- The reply content computed by the text-command handler `list_events`
(src/main.py:322-400): `none` models the "No economic events scheduled."
reply for an empty cache; otherwise the field lists of the high-impact
embed and of the other-events embed, in cache order. -/
def list_events_embeds (fd ft : DateTime → String) (cache : List EventRec) :
    Option (List (String × String) × List (String × String)) :=
  if cache.isEmpty then none
  else
    some (highEventFields fd ft (cache.filter (fun e => e.impact == Impact.High)),
          otherEventFields fd ft (cache.filter (fun e => !(e.impact == Impact.High))))

/-- As `highEventFields`, but embedded from the slash-command handler
`slash_list_events` (src/main.py:585-598). -/
def slashHighEventFields (fd ft : DateTime → String) (evs : List EventRec) :
    List (String × String) :=
  evs.map (fun e =>
    let dateStr := fd e.time
    let nameField :=
      if e.time.hour ≠ 0 ∨ e.time.minute ≠ 0 then dateStr ++ " • " ++ ft e.time
      else dateStr
    (nameField, "**" ++ e.title ++ "**\n└ Previous: " ++ e.previous))

/-- As `otherEventFields`, but embedded from `slash_list_events`
(src/main.py:606-628). -/
def slashOtherEventFields (fd ft : DateTime → String) (evs : List EventRec) :
    List (String × String) :=
  let final := evs.foldl (fun st e =>
    let dateStr := fd e.time
    let timeComponent :=
      if e.time.hour ≠ 0 ∨ e.time.minute ≠ 0 then "`" ++ ft e.time ++ "` " else ""
    let st1 :=
      if some dateStr ≠ st.1 then
        if st.2.2 ≠ "" then (some dateStr, st.2.1 ++ [(st.1.getD "", st.2.2)], "")
        else (some dateStr, st.2.1, st.2.2)
      else st
    (st1.1, st1.2.1,
     st1.2.2 ++ timeComponent ++ "**" ++ e.title ++ "** (" ++ e.previous ++ ")\n"))
    ((none : Option String), ([] : List (String × String)), "")
  if final.2.2 ≠ "" then final.2.1 ++ [(final.1.getD "", final.2.2)] else final.2.1

/-- The reply content computed by the slash-command handler
`slash_list_events` (src/main.py:558-634), embedded separately from its
own source lines for comparison with `list_events_embeds`. -/
def slash_list_events_embeds (fd ft : DateTime → String) (cache : List EventRec) :
    Option (List (String × String) × List (String × String)) :=
  if cache.isEmpty then none
  else
    some (slashHighEventFields fd ft (cache.filter (fun e => e.impact == Impact.High)),
          slashOtherEventFields fd ft (cache.filter (fun e => !(e.impact == Impact.High))))

/-- Series metadata as `fred.get_series_info` returns it: the title, and
the unit string when present (`info.get('units', ...)`). -/
structure SeriesInfo where
  title : String
  unitsOpt : Option String
  deriving DecidableEq, Repr

/-- The reply of a `getdata` handler: the embed's title, latest-value,
last-updated and units fields, or the `except` clause's error message. -/
inductive DataReply
  | fields (title latest lastUpdated units : String)
  | errorMsg (msg : String)
  deriving DecidableEq, Repr

/-- pandas `Series.dropna()`: the non-null observations, order kept. -/
def dropna (s : List (Nat × Option ℚ)) : List (Nat × ℚ) :=
  s.filterMap (fun p => p.2.map (fun v => (p.1, v)))

/-- `get_current_data` (src/main.py:403-434), given the outcome of the
gateway round trip (`Except.error` models either call raising) and the
`strftime('%Y-%m-%d')` rendering.  `series.iloc[-1]` on an empty
post-`dropna` series raises an IndexError, which the `except` converts to
the error reply. -/
def get_current_data (res : Except String (SeriesInfo × List (Nat × Option ℚ)))
    (fmtYmd : Nat → String) : DataReply :=
  match res with
  | Except.error e => DataReply.errorMsg ("Error fetching data: " ++ e)
  | Except.ok (info, series) =>
    match (dropna series).getLast? with
    | none =>
        DataReply.errorMsg
          ("Error fetching data: " ++ "single positional indexer is out-of-bounds")
    | some (t, v) =>
        DataReply.fields ("📊 " ++ info.title) (fmt2 true v) (fmtYmd t)
          (info.unitsOpt.getD "N/A")

/-- `slash_get_current_data` (src/main.py:646-666), embedded separately
from its own source lines for comparison with `get_current_data`. -/
def slash_get_current_data (res : Except String (SeriesInfo × List (Nat × Option ℚ)))
    (fmtYmd : Nat → String) : DataReply :=
  match res with
  | Except.error e => DataReply.errorMsg ("Error fetching data: " ++ e)
  | Except.ok (info, series) =>
    match (dropna series).getLast? with
    | none =>
        DataReply.errorMsg
          ("Error fetching data: " ++ "single positional indexer is out-of-bounds")
    | some (t, v) =>
        DataReply.fields ("📊 " ++ info.title) (fmt2 true v) (fmtYmd t)
          (info.unitsOpt.getD "N/A")

/-- The bounded weekend-skipping loop satisfies the `while` loop's
defining equation, so it is the loop's exact result. -/
theorem skipWeekend_fix (d : Nat) :
    skipWeekend d = if 5 ≤ d % 7 then skipWeekend (d + 1) else d := by
  have a7 : ∀ x : Nat, skipWeekendAux 7 x =
      if 5 ≤ x % 7 then skipWeekendAux 6 (x + 1) else x := fun _ => rfl
  have a6 : ∀ x : Nat, skipWeekendAux 6 x =
      if 5 ≤ x % 7 then skipWeekendAux 5 (x + 1) else x := fun _ => rfl
  have a5 : ∀ x : Nat, skipWeekendAux 5 x =
      if 5 ≤ x % 7 then skipWeekendAux 4 (x + 1) else x := fun _ => rfl
  simp only [skipWeekend, a7, a6, a5]
  split_ifs <;> omega

/-- C2 (code_bug): the source's cutoff test `now.hour >= 16 and
now.minute >= 30` does not advance the day at 17:00 even though 17:00 is
at or after the 16:30 cutoff, while the claim's reading
(`specNextApplicableDate`) does; the boundary 16:45 and the Saturday →
Monday behavior are also evaluated (day 0 = Monday, 4 = Friday,
5 = Saturday, 7 = the following Monday). -/
theorem nextApplicableDate_cutoff_eval :
    nextApplicableDate ⟨0, 17, 0, 0⟩ = 0 ∧
    specNextApplicableDate ⟨0, 17, 0, 0⟩ = 1 ∧
    nextApplicableDate ⟨0, 16, 45, 0⟩ = 1 ∧
    nextApplicableDate ⟨4, 16, 45, 0⟩ = 7 ∧
    skipWeekend 5 = 7 := by decide

/-- C3 (code_bug): on the ascending 30-day window `[5, 7]` the source's
scan returns the first (hence oldest) non-null value 5, not the most
recent value 7 the claim (and the source's own comment) calls for; and on
a window holding only a NaN observation the `series.empty` test is false,
so the `limit=1` fallback `[3]` is never consulted and the scan yields no
value at all. -/
theorem previousValue_oldest_eval :
    firstNonNA (pickSeries [some 5, some 7] []) = some (5 : ℚ) ∧
    firstNonNA (pickSeries [none] [some 3]) = none := by decide

/-- C1 counterexample: a run whose exception reaches the handler at
src/main.py:159-161 makes `fetch_economic_events` return `[]`, which
`update_daily_events` assigns to the cache; a previously published
one-event cache is therefore not retained. -/
theorem update_run_failure_cex :
    update_daily_events [⟨⟨0, 0, 0, 0⟩, "t", "s", Impact.Medium, "p"⟩]
        ⟨⟨0, 0, 0, 0⟩, fun _ => none, true⟩ ≠
      [⟨⟨0, 0, 0, 0⟩, "t", "s", Impact.Medium, "p"⟩] := by decide

/-- C1 amended: when the run-level handler is reached the failure is only
logged (one console line, no chat output — neither function sends to any
channel) but the Event Cache is replaced with the empty list rather than
left unchanged. -/
theorem update_run_failure (cache : List EventRec) (env : RefreshEnv)
    (h : env.outerFail = true) :
    update_daily_events cache env = [] ∧
    (fetch_economic_events env).2 = ["Error fetching economic events"] := by
  simp [update_daily_events, fetch_economic_events, h]

/-- Witness for `update_run_failure` at a concrete failing environment. -/
theorem update_run_failure_witness :
    update_daily_events [] ⟨⟨0, 0, 0, 0⟩, fun _ => none, true⟩ = [] ∧
    (fetch_economic_events ⟨⟨0, 0, 0, 0⟩, fun _ => none, true⟩).2 =
      ["Error fetching economic events"] :=
  update_run_failure [] ⟨⟨0, 0, 0, 0⟩, fun _ => none, true⟩ rfl

/-- C7 counterexample: for the gold key the source formats
currency-per-ounce, while the claim's ladder (no gold rule) falls through
to the grouped two-decimal default. -/
theorem formatValue_gold_cex :
    formatValue "GOLDPMGBD228NLBM" "Dollars per Troy Ounce" (some 1800) = "$1800.00/oz" ∧
    specLadderFormat "GOLDPMGBD228NLBM" "Dollars per Troy Ounce" (some 1800) = "1,800.00" ∧
    formatValue "GOLDPMGBD228NLBM" "Dollars per Troy Ounce" (some 1800) ≠
      specLadderFormat "GOLDPMGBD228NLBM" "Dollars per Troy Ounce" (some 1800) := by
  decide

/-- C7 amended: the formatter is a pure function of (key, value, unit);
absent values always render "N/A"; and for every key other than the gold
key GOLDPMGBD228NLBM (whose currency-per-ounce rule the claim's ladder
omits) the output is selected exactly by the claim's ladder. -/
theorem formatValue_ladder (seriesId units : String) (v : Option ℚ)
    (h : seriesId ≠ "GOLDPMGBD228NLBM") :
    formatValue seriesId units v = specLadderFormat seriesId units v ∧
    formatValue seriesId units none = "N/A" := by
  refine ⟨?_, rfl⟩
  cases v with
  | none => rfl
  | some x =>
      simp only [formatValue, specLadderFormat]
      rw [if_neg h]

/-- Witness for `formatValue_ladder` at a concrete non-gold key. -/
theorem formatValue_ladder_witness :
    formatValue "VIXCLS" "Index" (some 20) = specLadderFormat "VIXCLS" "Index" (some 20) ∧
    formatValue "VIXCLS" "Index" none = "N/A" :=
  formatValue_ladder "VIXCLS" "Index" (some 20) (by decide)

/-- C9: the text-command and slash-command handlers of `events` and of
`getdata` compute identical reply content from the same cache and gateway
data — in the source the two bodies are verbatim copies, so the separately
embedded functions are definitionally equal. -/
theorem text_and_slash_handlers_agree :
    (∀ fd ft cache, list_events_embeds fd ft cache = slash_list_events_embeds fd ft cache) ∧
    (∀ res fy, get_current_data res fy = slash_get_current_data res fy) :=
  ⟨fun _ _ _ => rfl, fun _ _ => rfl⟩

/-- C8: the intraday timeframe tokens are answered with the fixed Elite
message with no network call issued; and for a valid timeframe token, when
the HTTP GET comes back with a non-200 status or fails outright, the reply
is an embed of the original chart URL with the appended cache-busting
query parameter — not a file attachment and not an error message — sent as
a normal completion of the handler. -/
theorem send_chart_behavior :
    (∀ ticker tf env,
        (strLower tf = "3" ∨ strLower tf = "5" ∨ strLower tf = "15") →
        send_chart ticker tf env =
          ⟨ChartReply.message "Intraday charts are only available for FINVIZ*Elite users.",
           false⟩) ∧
    (∀ ticker tf env,
        (strLower tf = "d" ∨ strLower tf = "w" ∨ strLower tf = "m") →
        (env.fetchOutcome = none ∨ ∃ st, env.fetchOutcome = some st ∧ st ≠ 200) →
        send_chart ticker tf env =
          ⟨ChartReply.urlEmbed
             (strUpper ticker ++ " " ++ ((valid_timeframes.lookup (strLower tf)).getD "") ++
               " Chart")
             (chartUrl (strUpper ticker) (strLower tf) ++ "&rand=" ++ toString env.timestamp),
           true⟩) := by
  constructor
  · intro ticker tf env h
    rcases h with h | h | h <;>
      simp [send_chart, h]
  · intro ticker tf env htf henv
    rcases henv with hn | ⟨st, hst, hne⟩
    · rcases htf with h | h | h <;>
        simp [send_chart, h, hn, chartUrl, valid_timeframes, p_map, List.lookup]
    · rcases htf with h | h | h <;>
        simp [send_chart, h, hst, hne, chartUrl, valid_timeframes, p_map, List.lookup]

/-- Witness for `send_chart_behavior`: the intraday token 3 at a concrete
environment, and a valid daily request whose GET returned HTTP 404. -/
theorem send_chart_behavior_witness :
    send_chart "aapl" "3" ⟨some 200, 99⟩ =
      ⟨ChartReply.message "Intraday charts are only available for FINVIZ*Elite users.",
       false⟩ ∧
    send_chart "msft" "d" ⟨some 404, 7⟩ =
      ⟨ChartReply.urlEmbed
         (strUpper "msft" ++ " " ++ ((valid_timeframes.lookup (strLower "d")).getD "") ++
           " Chart")
         (chartUrl (strUpper "msft") (strLower "d") ++ "&rand=" ++ toString (7 : Nat)),
       true⟩ :=
  ⟨send_chart_behavior.1 "aapl" "3" ⟨some 200, 99⟩ (Or.inl (by decide)),
   send_chart_behavior.2 "msft" "d" ⟨some 404, 7⟩ (Or.inl (by decide))
     (Or.inr ⟨404, rfl, by decide⟩)⟩

/-- Unfolding step of `check_events` over a cons cell. -/
theorem check_events_cons (now : DateTime) (e : EventRec) (t : List EventRec)
    (channels : List Nat) :
    check_events now (e :: t) channels =
      (if e.time.hour = 0 ∧ e.time.minute = 0 then []
       else if 14 * 60 ≤ timeUntil e now ∧ timeUntil e now ≤ 15 * 60 then
         channels.map (fun c => (e, c))
       else []) ++ check_events now t channels := rfl

/-- C4: a (event, channel) notification is sent on a tick exactly when the
event is cached, the channel is registered, the event's parsed time is not
the midnight placeholder, and `scheduledAt - now` lies in the inclusive
[14 min, 15 min] window; in particular a cached event scheduled strictly
inside the window is announced once to every registered channel, and an
event 20 minutes away produces no notification. -/
theorem check_events_window :
    (∀ now cache channels (p : EventRec × Nat),
        p ∈ check_events now cache channels ↔
          (p.1 ∈ cache ∧ p.2 ∈ channels ∧
           ¬(p.1.time.hour = 0 ∧ p.1.time.minute = 0) ∧
           14 * 60 ≤ timeUntil p.1 now ∧ timeUntil p.1 now ≤ 15 * 60)) ∧
    (∀ now channels (e : EventRec),
        ¬(e.time.hour = 0 ∧ e.time.minute = 0) →
        14 * 60 ≤ timeUntil e now → timeUntil e now ≤ 15 * 60 →
        check_events now [e] channels = channels.map (fun c => (e, c))) ∧
    (∀ now channels (e : EventRec),
        timeUntil e now = 20 * 60 →
        check_events now [e] channels = []) := by
  refine ⟨?_, ?_, ?_⟩
  · intro now cache channels p
    induction cache with
    | nil => simp [check_events]
    | cons e t ih =>
        rw [check_events_cons]
        by_cases hm : e.time.hour = 0 ∧ e.time.minute = 0
        · simp only [if_pos hm, List.nil_append, ih, List.mem_cons]
          constructor
          · rintro ⟨h1, rest⟩
            exact ⟨Or.inr h1, rest⟩
          · rintro ⟨h1 | h1, rest⟩
            · exact absurd (h1 ▸ hm) rest.2.1
            · exact ⟨h1, rest⟩
        · by_cases hw : 14 * 60 ≤ timeUntil e now ∧ timeUntil e now ≤ 15 * 60
          · simp only [if_neg hm, if_pos hw, List.mem_append, ih, List.mem_map,
              List.mem_cons]
            constructor
            · rintro (⟨c, hc, rfl⟩ | ⟨h1, rest⟩)
              · exact ⟨Or.inl rfl, hc, hm, hw.1, hw.2⟩
              · exact ⟨Or.inr h1, rest⟩
            · rintro ⟨h1 | h1, hc, rest⟩
              · refine Or.inl ⟨p.2, hc, ?_⟩
                cases p
                simp_all
              · exact Or.inr ⟨h1, hc, rest⟩
          · simp only [if_neg hm, if_neg hw, List.nil_append, ih, List.mem_cons]
            constructor
            · rintro ⟨h1, rest⟩
              exact ⟨Or.inr h1, rest⟩
            · rintro ⟨h1 | h1, hc, hm2, h3, h4⟩
              · exact absurd ⟨h3, h4⟩ (h1 ▸ hw)
              · exact ⟨h1, hc, hm2, h3, h4⟩
  · intro now channels e hm h1 h2
    rw [check_events_cons, if_neg hm, if_pos ⟨h1, h2⟩]
    simp [check_events]
  · intro now channels e h20
    by_cases hm : e.time.hour = 0 ∧ e.time.minute = 0 <;>
      simp [check_events_cons, check_events, hm, h20]

/-- Witness for `check_events_window` on a concrete tick: at 10:00:00 an
event at 10:14:30 (870 s away) is announced to both registered channels,
and an event at 10:20:00 (1200 s away) is not announced. -/
theorem check_events_window_witness :
    check_events ⟨0, 10, 0, 0⟩ [⟨⟨0, 10, 14, 30⟩, "CPI", "CPIAUCSL", Impact.High, "3.2%"⟩]
        [1, 2] =
      [1, 2].map (fun c => (⟨⟨0, 10, 14, 30⟩, "CPI", "CPIAUCSL", Impact.High, "3.2%"⟩, c)) ∧
    check_events ⟨0, 10, 0, 0⟩ [⟨⟨0, 10, 20, 0⟩, "GDP", "GDP", Impact.High, "2.0%"⟩]
        [1, 2] = [] :=
  ⟨check_events_window.2.1 ⟨0, 10, 0, 0⟩ [1, 2]
      ⟨⟨0, 10, 14, 30⟩, "CPI", "CPIAUCSL", Impact.High, "3.2%"⟩
      (by decide) (by decide) (by decide),
   check_events_window.2.2 ⟨0, 10, 0, 0⟩ [1, 2]
      ⟨⟨0, 10, 20, 0⟩, "GDP", "GDP", Impact.High, "2.0%"⟩ (by decide)⟩

/-- Every event record a successful refresh builds carries the date-only
midnight placeholder as its time. -/
theorem fetch_events_midnight (env : RefreshEnv) (e : EventRec)
    (he : e ∈ (fetch_economic_events env).1) :
    e.time.hour = 0 ∧ e.time.minute = 0 := by
  by_cases hf : env.outerFail = true
  · simp [fetch_economic_events, hf] at he
  · rw [fetch_economic_events, if_neg hf] at he
    simp only [sortEvents, List.mem_insertionSort, List.mem_filterMap] at he
    obtain ⟨p, _, hmk⟩ := he
    obtain ⟨d, _, rfl⟩ := Option.map_eq_some'.mp hmk
    exact ⟨rfl, rfl⟩

/-- C10: every record produced by the refresh job stores a date-only
(midnight) `scheduledAt`, and the notifier skips exactly those records, so
a cache published by any refresh run never yields a notification on any
tick, whatever the clock and whatever channels are registered. -/
theorem refresh_cache_never_notifies :
    ∀ env now channels,
      (∀ e ∈ (fetch_economic_events env).1, e.time.hour = 0 ∧ e.time.minute = 0) ∧
      check_events now (fetch_economic_events env).1 channels = [] := by
  intro env now channels
  refine ⟨fun e he => fetch_events_midnight env e he, ?_⟩
  have hall : ∀ cache : List EventRec,
      (∀ e ∈ cache, e.time.hour = 0 ∧ e.time.minute = 0) →
      check_events now cache channels = [] := by
    intro cache h
    induction cache with
    | nil => rfl
    | cons e t ih =>
        rw [check_events_cons, if_pos (h e (List.mem_cons_self e t)), List.nil_append]
        exact ih (fun x hx => h x (List.mem_cons_of_mem e hx))
  exact hall _ (fun e he => fetch_events_midnight env e he)

/-- The series ids of the records built from a catalog fragment are
exactly the fragment's keys on which the gateway succeeded, in order. -/
theorem filterMap_series_ids (g : String → Option IndicatorData) (rd : Nat) :
    ∀ l : List (String × String),
      (l.filterMap (fun p => (g p.1).map (mkEvent rd p.1 p.2))).map
          (fun e => e.series_id) =
        (l.map Prod.fst).filter (fun sid => (g sid).isSome)
  | [] => rfl
  | p :: t => by
      cases hg : g p.1 <;>
        simp [List.filterMap_cons, List.filter_cons, hg, mkEvent,
          filterMap_series_ids g rd t]

/-- Splitting a key list by gateway success is length-preserving. -/
theorem length_filter_gateway (g : String → Option IndicatorData) :
    ∀ l : List String,
      (l.filter (fun sid => (g sid).isSome)).length +
        (l.filter (fun sid => (g sid).isNone)).length = l.length
  | [] => rfl
  | sid :: t => by
      have ih := length_filter_gateway g t
      cases hg : g sid <;> simp [List.filter_cons, hg] <;> omega

/-- C6: on a run where the gateway fails for some catalog keys and
succeeds for the others, the published cache consists (up to the final
sort, a permutation) of exactly the succeeding keys: its length is the
catalog size minus the number of failures, and each succeeding key
contributes exactly one record. -/
theorem fetch_gateway_failures_skipped (env : RefreshEnv) (h : env.outerFail = false) :
    ((fetch_economic_events env).1.map (fun e => e.series_id)).Perm
        (indicatorKeys.filter (fun sid => (env.gateway sid).isSome)) ∧
    (fetch_economic_events env).1.length =
      indicatorKeys.length -
        (indicatorKeys.filter (fun sid => (env.gateway sid).isNone)).length ∧
    ∀ sid, sid ∈ indicatorKeys → (env.gateway sid).isSome →
      ((fetch_economic_events env).1.map (fun e => e.series_id)).count sid = 1 := by
  have hfetch : (fetch_economic_events env).1 =
      sortEvents (ECONOMIC_INDICATORS.filterMap (fun p =>
        (env.gateway p.1).map (mkEvent (nextApplicableDate env.now) p.1 p.2))) := by
    rw [fetch_economic_events, if_neg (by simp [h])]
  have hperm : ((fetch_economic_events env).1.map (fun e => e.series_id)).Perm
      (indicatorKeys.filter (fun sid => (env.gateway sid).isSome)) := by
    rw [hfetch, sortEvents]
    have h1 := (List.perm_insertionSort (fun a b : EventRec => a.time.day ≤ b.time.day)
      (ECONOMIC_INDICATORS.filterMap (fun p =>
        (env.gateway p.1).map (mkEvent (nextApplicableDate env.now) p.1 p.2)))).map
      (fun e => e.series_id)
    rw [filterMap_series_ids env.gateway (nextApplicableDate env.now)
      ECONOMIC_INDICATORS] at h1
    exact h1
  refine ⟨hperm, ?_, ?_⟩
  · have hlen : (fetch_economic_events env).1.length =
        ((fetch_economic_events env).1.map (fun e => e.series_id)).length := by
      rw [List.length_map]
    rw [hlen, hperm.length_eq]
    have := length_filter_gateway env.gateway indicatorKeys
    omega
  · intro sid hmem hsome
    rw [hperm.count_eq]
    have hnodup : indicatorKeys.Nodup := by decide
    have hle := List.nodup_iff_count_le_one.mp hnodup sid
    have hpos : 0 < indicatorKeys.count sid := List.count_pos_iff.mpr hmem
    have hcf : (indicatorKeys.filter (fun s => (env.gateway s).isSome)).count sid =
        indicatorKeys.count sid := List.count_filter (by simpa using hsome)
    omega

/-- Witness for `fetch_gateway_failures_skipped` at a concrete environment
where the gateway fails for GDP and succeeds for every other key. -/
theorem fetch_gateway_failures_skipped_witness :
    ((fetch_economic_events
        ⟨⟨0, 0, 0, 0⟩, fun sid => if sid = "GDP" then none else some ⟨none, [], []⟩,
         false⟩).1.map (fun e => e.series_id)).Perm
      (indicatorKeys.filter (fun sid =>
        ((⟨⟨0, 0, 0, 0⟩, fun sid => if sid = "GDP" then none else some ⟨none, [], []⟩,
           false⟩ : RefreshEnv).gateway sid).isSome)) ∧
    ((fetch_economic_events
        ⟨⟨0, 0, 0, 0⟩, fun sid => if sid = "GDP" then none else some ⟨none, [], []⟩,
         false⟩).1.map (fun e => e.series_id)).count "CPIAUCSL" = 1 :=
  ⟨(fetch_gateway_failures_skipped
      ⟨⟨0, 0, 0, 0⟩, fun sid => if sid = "GDP" then none else some ⟨none, [], []⟩, false⟩
      rfl).1,
   (fetch_gateway_failures_skipped
      ⟨⟨0, 0, 0, 0⟩, fun sid => if sid = "GDP" then none else some ⟨none, [], []⟩, false⟩
      rfl).2.2 "CPIAUCSL" (by decide) (by decide)⟩

/-- In a series with distinct dates, the pandas index lookup of a member's
date finds exactly that member. -/
theorem find_self_of_nodup (d : List (Nat × ℚ)) (hn : (d.map Prod.fst).Nodup) :
    ∀ p ∈ d, (d.map (fun q => (q.1, some q.2))).find? (fun q => q.1 == p.1) =
      some (p.1, some p.2) := by
  induction d with
  | nil => intro p hp; cases hp
  | cons a t ih =>
      intro p hp
      have hn2 : (a.1 :: t.map Prod.fst).Nodup := by simpa using hn
      have hn' := List.nodup_cons.mp hn2
      rcases List.mem_cons.mp hp with rfl | hp'
      · simp only [List.map_cons]
        rw [List.find?_cons_of_pos _ (by simp)]
      · have hne : (a.1 == p.1) = false := by
          have hmem : p.1 ∈ t.map Prod.fst := List.mem_map.mpr ⟨p, hp', rfl⟩
          simp only [beq_eq_false_iff_ne, ne_eq]
          intro hEq
          exact hn'.1 (hEq ▸ hmem)
        simp only [List.map_cons]
        rw [List.find?_cons_of_neg _ (by simpa using hne)]
        exact ih hn'.2 p hp'

/-- Aligning a distinct-date series with itself pairs every value with
itself. -/
theorem alignPairs_self (d : List (Nat × ℚ)) (hn : (d.map Prod.fst).Nodup) :
    alignPairs (d.map (fun q => (q.1, some q.2))) (d.map (fun q => (q.1, some q.2))) =
      d.map (fun p => (p.2, p.2)) := by
  have hfind := find_self_of_nodup d hn
  suffices h : ∀ sub : List (Nat × ℚ), (∀ p ∈ sub, p ∈ d) →
      alignPairs (sub.map (fun q => (q.1, some q.2))) (d.map (fun q => (q.1, some q.2))) =
        sub.map (fun p => (p.2, p.2)) from h d (fun _ hp => hp)
  intro sub hsub
  induction sub with
  | nil => rfl
  | cons a t ih =>
      have hl : lookupDate (d.map (fun q => (q.1, some q.2))) a.1 = some (some a.2) := by
        rw [lookupDate, hfind a (hsub a (List.mem_cons_self a t))]
        rfl
      simp only [List.map_cons, alignPairs, List.filterMap_cons, hl]
      exact congrArg _ (ih (fun p hp => hsub p (List.mem_cons_of_mem a hp)))

/-- Expanding a sum of squared differences against a fixed value. -/
theorem sum_sub_sq_expand (a : ℚ) (t : List ℚ) :
    (t.map (fun x => (a - x) * (a - x))).sum =
      (t.length : ℚ) * (a * a) - 2 * a * t.sum + (t.map (fun x => x * x)).sum := by
  induction t with
  | nil => simp
  | cons b t ih =>
      simp only [List.map_cons, List.sum_cons, List.length_cons]
      rw [ih]
      push_cast
      ring

/-- The scaled variance sum grows by the squared distances to the new
value. -/
theorem nVar_cons (a : ℚ) (t : List ℚ) :
    nVar (a :: t) = nVar t + (t.map (fun x => (a - x) * (a - x))).sum := by
  simp only [nVar, List.length_cons, List.map_cons, List.sum_cons]
  rw [sum_sub_sq_expand]
  push_cast
  ring

/-- The scaled variance sum is never negative. -/
theorem nVar_nonneg (l : List ℚ) : 0 ≤ nVar l := by
  induction l with
  | nil => simp [nVar]
  | cons a t ih =>
      rw [nVar_cons]
      have hs : 0 ≤ (t.map (fun x => (a - x) * (a - x))).sum := by
        refine List.sum_nonneg ?_
        intro x hx
        obtain ⟨y, _, rfl⟩ := List.mem_map.mp hx
        exact mul_self_nonneg _
      linarith

/-- C5 counterexample: two series with a single overlapping point do not
produce an error reply — `Series.corr` returns NaN without raising, so the
handler sends its normal result embed whose coefficient field renders
"nan". -/
theorem get_correlation_no_error_cex :
    get_correlation (Except.ok [((0 : Nat), some (1 : ℚ))])
        (Except.ok [((0 : Nat), some (2 : ℚ))]) = CorrReply.result none ∧
    corrReplyIsError (get_correlation (Except.ok [((0 : Nat), some (1 : ℚ))])
        (Except.ok [((0 : Nat), some (2 : ℚ))])) = false :=
  ⟨rfl, rfl⟩

/-- The sample identical series used by the amended-claim witness has
nonzero scaled variance. -/
theorem nVar_sample_ne :
    nVar (([((0 : Nat), (1 : ℚ)), (1, 2)]).map (fun p => p.2)) ≠ 0 := by
  norm_num [nVar]

/-- C5 amended: on two identical series with distinct dates, at least two
points and nonzero variance the handler replies with coefficient exactly
1 (rendered "1.00"); and on any two series with fewer than two overlapping
points the handler neither raises nor errors: it sends the normal result
embed with a NaN coefficient (rendered "nan"), not an error reply. -/
theorem get_correlation_amended :
    (∀ d : List (Nat × ℚ),
        (d.map Prod.fst).Nodup → 2 ≤ d.length →
        nVar (d.map (fun p => p.2)) ≠ 0 →
        get_correlation (Except.ok (d.map (fun p => (p.1, some p.2))))
            (Except.ok (d.map (fun p => (p.1, some p.2)))) =
          CorrReply.result (some 1)) ∧
    (∀ d1 d2, (alignPairs d1 d2).length < 2 →
        get_correlation (Except.ok d1) (Except.ok d2) = CorrReply.result none) := by
  constructor
  · intro d hnodup hlen hvar
    have halign := alignPairs_self d hnodup
    simp only [get_correlation]
    rw [halign]
    have hfst : (d.map (fun p : Nat × ℚ => (p.2, p.2))).map Prod.fst =
        d.map (fun p => p.2) := by
      simp [List.map_map, Function.comp]
    have hsnd : (d.map (fun p : Nat × ℚ => (p.2, p.2))).map Prod.snd =
        d.map (fun p => p.2) := by
      simp [List.map_map, Function.comp]
    have hmul : (d.map (fun p : Nat × ℚ => (p.2, p.2))).map (fun p => p.1 * p.2) =
        (d.map (fun p => p.2)).map (fun x => x * x) := by
      simp [List.map_map, Function.comp]
    have hlen2 : (d.map (fun p : Nat × ℚ => (p.2, p.2))).length = d.length :=
      List.length_map _ _
    have hcov : nCov (d.map (fun p : Nat × ℚ => (p.2, p.2))) =
        nVar (d.map (fun p => p.2)) := by
      rw [nCov, nVar, hfst, hsnd, hmul, hlen2, List.length_map]
      ring
    simp only [pandasCorr, hfst, hsnd, hcov, hlen2]
    rw [if_neg (by
      simp only [not_or]
      exact ⟨by omega, hvar, hvar⟩)]
    have h0 : (0 : ℝ) ≤ ((nVar (d.map (fun p => p.2)) : ℚ) : ℝ) := by
      exact_mod_cast nVar_nonneg _
    have hne : ((nVar (d.map (fun p => p.2)) : ℚ) : ℝ) ≠ 0 := by
      exact_mod_cast hvar
    rw [show ((nVar (d.map (fun p => p.2)) * nVar (d.map (fun p => p.2)) : ℚ) : ℝ) =
        ((nVar (d.map (fun p => p.2)) : ℚ) : ℝ) * ((nVar (d.map (fun p => p.2)) : ℚ) : ℝ) by
      push_cast
      ring]
    rw [Real.sqrt_mul_self h0, div_self hne]
  · intro d1 d2 hlen
    simp only [get_correlation, pandasCorr]
    rw [if_pos (Or.inl hlen)]

/-- Witness for `get_correlation_amended`: the identical two-point series
(value 1 at date 0, value 2 at date 1) yields coefficient 1, and a pair of
series with no overlap at all yields the NaN result reply. -/
theorem get_correlation_amended_witness :
    get_correlation
        (Except.ok (([((0 : Nat), (1 : ℚ)), (1, 2)]).map (fun p => (p.1, some p.2))))
        (Except.ok (([((0 : Nat), (1 : ℚ)), (1, 2)]).map (fun p => (p.1, some p.2)))) =
      CorrReply.result (some 1) ∧
    get_correlation (Except.ok [((0 : Nat), some (3 : ℚ))]) (Except.ok []) =
      CorrReply.result none :=
  ⟨get_correlation_amended.1 [(0, 1), (1, 2)] (by decide) (by decide) nVar_sample_ne,
   get_correlation_amended.2 [((0 : Nat), some (3 : ℚ))] [] (by decide)⟩
